import Mathlib

/-!
Shallow embedding of the real-time animated-entity engine of the
baby keyboard smashing game (src/js/shapes.js, src/js/particles.js,
src/js/sounds.js, src/js/main.js and the utils module), together with
theorems settling the specification claims about it.

JavaScript numbers are modelled as rationals (`ℚ`); `Math.random()` is
modelled by an explicit stream of draws threaded through the code
(`RNG`); `Math.sin`, `Math.cos` and `Math.PI` are modelled by an
abstract environment (`MathEnv`), since no claim depends on their
analytic values.
-/

namespace BabyGame

/-- Truncation toward zero on `ℚ`, as JavaScript division-based
truncation (used by the `%` operator on numbers). -/
def ratTrunc (q : ℚ) : ℤ :=
  if 0 ≤ q then ⌊q⌋ else ⌈q⌉

/-- The JavaScript `%` remainder operator on numbers:
`a % b = a - b * trunc (a / b)`. -/
def jsMod (a b : ℚ) : ℚ :=
  a - b * ratTrunc (a / b)

/-- JavaScript array indexing `l[i]`: out-of-range and negative
indices yield `undefined`, modelled by the string "undefined". -/
def listGetJs (l : List String) (i : ℤ) : String :=
  if 0 ≤ i then l.getD i.toNat "undefined" else "undefined"

/-- A deterministic model of the stream of `Math.random()` results:
`stream` gives the successive draws, `k` is the index of the next one. -/
structure RNG where
  stream : ℕ → ℚ
  k : ℕ

/-- One call to `Math.random()`. -/
def RNG.next (g : RNG) : ℚ × RNG :=
  (g.stream g.k, ⟨g.stream, g.k + 1⟩)

/-- All draws of the stream lie in `[0, 1)`, as `Math.random()`
guarantees. -/
def RNG.Valid (g : RNG) : Prop :=
  ∀ n, 0 ≤ g.stream n ∧ g.stream n < 1

/-- utils.js `randomBetween(min, max)`:
`Math.random() * (max - min) + min`. -/
def randomBetween (lo hi : ℚ) (g : RNG) : ℚ × RNG :=
  let (r, g) := g.next
  (r * (hi - lo) + lo, g)

/-- utils.js `randomIntBetween(min, max)`:
`Math.floor(Math.random() * (max - min + 1)) + min`. -/
def randomIntBetween (lo hi : ℤ) (g : RNG) : ℤ × RNG :=
  let (r, g) := g.next
  (⌊r * ((hi : ℚ) - (lo : ℚ) + 1)⌋ + lo, g)

/-- Abstract model of the transcendental pieces of `Math` used by the
engine.  The claims under verification do not depend on the analytic
values of `sin`, `cos` or `π`. -/
structure MathEnv where
  pi : ℚ
  sin : ℚ → ℚ
  cos : ℚ → ℚ

/-- utils.js `BABY_COLORS`. -/
def BABY_COLORS : List String :=
  ["#FF6B6B", "#4ECDC4", "#45B7D1", "#96CEB4", "#FFEAA7", "#DDA0DD",
   "#FFB6C1", "#98FB98", "#FFA07A", "#87CEEB", "#F0E68C", "#DEB887"]

/-- utils.js `CONFIG.shapes.types`. -/
def CONFIG.shapes.types : List String :=
  ["circle", "square", "triangle", "star", "heart"]

/-- utils.js `CONFIG.shapes.minSize`. -/
def CONFIG.shapes.minSize : ℚ := 40

/-- utils.js `CONFIG.shapes.maxSize`. -/
def CONFIG.shapes.maxSize : ℚ := 120

/-- utils.js `CONFIG.shapes.animationDuration`. -/
def CONFIG.shapes.animationDuration : ℚ := 3000

/-- utils.js `CONFIG.shapes.fadeOutDuration`. -/
def CONFIG.shapes.fadeOutDuration : ℚ := 1500

/-- utils.js `CONFIG.shapes.maxActiveShapes`. -/
def CONFIG.shapes.maxActiveShapes : ℕ := 15

/-- utils.js `CONFIG.particles.minSize`. -/
def CONFIG.particles.minSize : ℚ := 3

/-- utils.js `CONFIG.particles.maxSize`. -/
def CONFIG.particles.maxSize : ℚ := 8

/-- utils.js `CONFIG.particles.maxActiveParticles`. -/
def CONFIG.particles.maxActiveParticles : ℕ := 100

/-- utils.js `CONFIG.audio.volume`. -/
def CONFIG.audio.volume : ℚ := 0.7

/-- utils.js `CONFIG.audio.maxConcurrentSounds`. -/
def CONFIG.audio.maxConcurrentSounds : ℕ := 5

/-- utils.js `getRandomColor()`:
`BABY_COLORS[Math.floor(Math.random() * BABY_COLORS.length)]`. -/
def getRandomColor (g : RNG) : String × RNG :=
  let (r, g) := g.next
  (listGetJs BABY_COLORS ⌊r * (BABY_COLORS.length : ℚ)⌋, g)

/-- utils.js `getRandomPosition(canvasWidth, canvasHeight, padding)`. -/
def getRandomPosition (w h padding : ℚ) (g : RNG) : (ℚ × ℚ) × RNG :=
  let (x, g) := randomBetween padding (w - padding) g
  let (y, g) := randomBetween padding (h - padding) g
  ((x, y), g)

/-- utils.js `easeOut(t) = 1 - (1 - t)^3`. -/
def easeOut (t : ℚ) : ℚ := 1 - (1 - t) ^ 3

/-- utils.js `easeBounce(t)` (piecewise quadratic bounce easing). -/
def easeBounce (t : ℚ) : ℚ :=
  if t < 1 / 2.75 then
    7.5625 * t * t
  else if t < 2 / 2.75 then
    7.5625 * (t - 1.5 / 2.75) * (t - 1.5 / 2.75) + 0.75
  else if t < 2.5 / 2.75 then
    7.5625 * (t - 2.25 / 2.75) * (t - 2.25 / 2.75) + 0.9375
  else
    7.5625 * (t - 2.625 / 2.75) * (t - 2.625 / 2.75) + 0.984375

/-- utils.js `ObjectPool`: a free-list of reusable instances, stored as a
JavaScript array (`push`/`pop` act on the end of the list). -/
structure ObjectPool (T : Type) where
  createFn : Unit → T
  resetFn : T → T
  pool : List T

/-- The `ObjectPool` constructor: pre-populates the free-list with
`initialSize` instances built by `createFn`. -/
def ObjectPool.make {T : Type} (createFn : Unit → T) (resetFn : T → T)
    (initialSize : ℕ) : ObjectPool T :=
  ⟨createFn, resetFn, (List.range initialSize).map (fun _ => createFn ())⟩

/-- `ObjectPool.get()`: pops the last element of the free-list, or
creates a fresh instance when the free-list is empty. -/
def ObjectPool.get {T : Type} (p : ObjectPool T) : T × ObjectPool T :=
  match p.pool.getLast? with
  | some o => (o, { p with pool := p.pool.dropLast })
  | none => (p.createFn (), p)

/-- `ObjectPool.release(obj)`: applies `resetFn` and pushes the instance
onto the end of the free-list. -/
def ObjectPool.release {T : Type} (p : ObjectPool T) (o : T) : ObjectPool T :=
  { p with pool := p.pool ++ [p.resetFn o] }

/-- A sparkle accent glyph of a `sparkle`-effect shape (shapes.js
`initSparkles`). -/
structure Sparkle where
  x : ℚ
  y : ℚ
  size : ℚ
  rotation : ℚ
  speed : ℚ
  deriving DecidableEq

/-- shapes.js `Shape`: a pooled, time-animated geometric entity. -/
structure Shape where
  x : ℚ
  y : ℚ
  size : ℚ
  maxSize : ℚ
  color : String
  type : String
  rotation : ℚ
  rotationSpeed : ℚ
  createdAt : ℚ
  lifespan : ℚ
  fadeOutStart : ℚ
  scaleAnimation : ℚ
  isActive : Bool
  effect : String
  initialScale : ℚ
  targetScale : ℚ
  bounceHeight : ℚ
  bounceSpeed : ℚ
  pulsePeriod : ℚ
  sparkles : List Sparkle
  trails : List ℚ
  deriving DecidableEq

/-- The field values assigned by shapes.js `Shape.reset()` (which
overwrites every field; the `Shape` constructor also calls it). -/
def Shape.blank : Shape where
  x := 0
  y := 0
  size := 0
  maxSize := 0
  color := "#FF6B6B"
  type := "circle"
  rotation := 0
  rotationSpeed := 0
  createdAt := 0
  lifespan := CONFIG.shapes.animationDuration
  fadeOutStart := CONFIG.shapes.animationDuration - CONFIG.shapes.fadeOutDuration
  scaleAnimation := 0
  isActive := false
  effect := "normal"
  initialScale := 0
  targetScale := 1
  bounceHeight := 0
  bounceSpeed := 0
  pulsePeriod := 0
  sparkles := []
  trails := []

instance : Inhabited Shape := ⟨Shape.blank⟩

/-- shapes.js `Shape.reset()`: reassigns every field of the shape to its
blank value. -/
def Shape.reset (_s : Shape) : Shape := Shape.blank

/-- Loop body collection of shapes.js `Shape.initSparkles()`: each
iteration makes five `randomBetween` draws and pushes one sparkle. -/
def Shape.sparkleLoop (env : MathEnv) (maxSize : ℚ) :
    ℕ → List Sparkle → RNG → List Sparkle × RNG
  | 0, acc, g => (acc, g)
  | n + 1, acc, g =>
    let (sx, g) := randomBetween (-maxSize * 0.5) (maxSize * 0.5) g
    let (sy, g) := randomBetween (-maxSize * 0.5) (maxSize * 0.5) g
    let (ssize, g) := randomBetween 2 6 g
    let (srot, g) := randomBetween 0 (env.pi * 2) g
    let (sspeed, g) := randomBetween 0.005 0.015 g
    Shape.sparkleLoop env maxSize n
      (acc ++ [⟨sx, sy, ssize, srot, sspeed⟩]) g

/-- shapes.js `Shape.initSparkles()`: pushes `randomIntBetween(5, 10)`
sparkles. -/
def Shape.initSparkles (env : MathEnv) (s : Shape) (g : RNG) : Shape × RNG :=
  let (sparkleCount, g) := randomIntBetween 5 10 g
  let (sps, g) := Shape.sparkleLoop env s.maxSize sparkleCount.toNat s.sparkles g
  ({ s with sparkles := sps }, g)

/-- shapes.js `Shape.initEffect()`: effect-specific initialization, then
`fadeOutStart = lifespan - fadeOutDuration`. -/
def Shape.initEffect (env : MathEnv) (s : Shape) (g : RNG) : Shape × RNG :=
  let (s, g) :=
    if s.effect = "explosion" then
      ({ s with lifespan := CONFIG.shapes.animationDuration * 1.5,
                maxSize := s.maxSize * 1.5,
                rotationSpeed := s.rotationSpeed * 1.5 }, g)
    else if s.effect = "fireworks" then
      ({ s with lifespan := CONFIG.shapes.animationDuration * 2,
                maxSize := s.maxSize * 0.8,
                pulsePeriod := 500 }, g)
    else if s.effect = "sparkle" then
      Shape.initSparkles env
        { s with lifespan := CONFIG.shapes.animationDuration * 1.2 } g
    else if s.effect = "rainbow" then
      ({ s with lifespan := CONFIG.shapes.animationDuration * 1.3,
                maxSize := s.maxSize * 1.2 }, g)
    else if s.effect = "star" then
      let (bh, g) := randomBetween 20 40 g
      let (bs, g) := randomBetween 0.05 0.1 g
      ({ s with bounceHeight := bh, bounceSpeed := bs }, g)
    else
      (s, g)
  ({ s with fadeOutStart := s.lifespan - CONFIG.shapes.fadeOutDuration }, g)

/-- shapes.js `Shape.init(x, y, type, color, effect)`; `now` models the
`performance.now()` call that stamps `createdAt`. -/
def Shape.init (env : MathEnv) (now x y : ℚ) (ty col eff : String)
    (g : RNG) : Shape × RNG :=
  let s := Shape.blank
  let s := { s with x := x, y := y, type := ty, color := col, effect := eff,
                    createdAt := now, isActive := true }
  let (ms, g) := randomBetween CONFIG.shapes.minSize CONFIG.shapes.maxSize g
  let s := { s with maxSize := ms, size := 0 }
  let (rot, g) := randomBetween 0 (env.pi * 2) g
  let (rsp, g) := randomBetween (-0.005) 0.005 g
  let s := { s with rotation := rot, rotationSpeed := rsp }
  Shape.initEffect env s g

/-- shapes.js `Shape.updateEffect(age, progress, deltaTime)`. -/
def Shape.updateEffect (env : MathEnv) (age progress dt : ℚ)
    (s : Shape) : Shape :=
  if s.effect = "explosion" then
    if progress < 0.2 then
      { s with size := s.maxSize * easeBounce (progress * 5) }
    else s
  else if s.effect = "fireworks" then
    if 0 < s.pulsePeriod then
      let pulsePhase := jsMod age s.pulsePeriod / s.pulsePeriod
      let pulse := 1 + env.sin (pulsePhase * env.pi * 2) * 0.3
      { s with size := s.maxSize * pulse }
    else s
  else if s.effect = "sparkle" then
    { s with sparkles := s.sparkles.map (fun sp =>
        { sp with rotation := sp.rotation + sp.speed * dt }) }
  else if s.effect = "star" then
    if 0 < s.bounceHeight then
      let bouncePhase := env.sin (age * s.bounceSpeed)
      { s with y := s.y + bouncePhase * s.bounceHeight * 0.01 }
    else s
  else s

/-- shapes.js `Shape.update(deltaTime)`: returns the mutated shape and
the "still alive" boolean; `now` models the `performance.now()` call. -/
def Shape.update (env : MathEnv) (now dt : ℚ) (s : Shape) : Shape × Bool :=
  if !s.isActive then (s, false)
  else
    let age := now - s.createdAt
    let progress := min (age / s.lifespan) 1
    let s := { s with rotation := s.rotation + s.rotationSpeed * dt }
    let s :=
      if age < s.lifespan * 0.3 then
        let growProgress := age / (s.lifespan * 0.3)
        { s with size := s.maxSize * easeOut growProgress }
      else
        { s with size := s.maxSize }
    let s := Shape.updateEffect env age progress dt s
    if 1 ≤ progress then ({ s with isActive := false }, false)
    else (s, true)

/-- The abstract stimulus handed to the engine (main.js builds it from a
keyboard event): key category, character and effect tag. -/
structure KeyInfo where
  type : String
  character : Char
  effect : String

/-- shapes.js `ShapeManager` state: the live collection plus the shape
pool. -/
structure ShapeManagerState where
  shapes : List Shape
  shapePool : ObjectPool Shape

/-- The `ShapeManager` constructor: no live shapes, a pool pre-warmed
with 10 instances. -/
def ShapeManager.initState : ShapeManagerState :=
  ⟨[], ObjectPool.make (fun _ => Shape.blank) Shape.reset 10⟩

/-- shapes.js `ShapeManager.getShapeType(keyInfo)`: the deterministic
stimulus→subtype mapping (random only in the default branch). -/
def ShapeManager.getShapeType (k : KeyInfo) (g : RNG) : String × RNG :=
  if k.type = "letter" then
    let letterIndex : ℤ := (k.character.toLower.toNat : ℤ) - 97
    if k.character = k.character.toUpper then ("star", g)
    else
      (listGetJs CONFIG.shapes.types
        (Int.tmod letterIndex (CONFIG.shapes.types.length : ℤ)), g)
  else if k.type = "number" then
    let num : ℤ := if k.character.isDigit then (k.character.toNat : ℤ) - 48 else 0
    (listGetJs CONFIG.shapes.types
      (Int.tmod num (CONFIG.shapes.types.length : ℤ)), g)
  else if k.type = "space" then ("heart", g)
  else if k.type = "enter" then ("star", g)
  else if k.type = "arrow" then ("triangle", g)
  else
    let (r, g) := g.next
    (listGetJs CONFIG.shapes.types ⌊r * (CONFIG.shapes.types.length : ℚ)⌋, g)

/-- shapes.js `ShapeManager.createShape(keyInfo)`: random position inset
by `CONFIG.shapes.maxSize`, pool acquire (`init` resets the acquired
instance, so its prior value does not matter), push, then eviction of
the oldest shape when over `maxActiveShapes`.  `w`/`h` are the canvas
CSS bounds and `now` the `performance.now()` stamp. -/
def ShapeManager.createShape (env : MathEnv) (w h now : ℚ) (k : KeyInfo)
    (st : ShapeManagerState) (g : RNG) : ShapeManagerState × Shape × RNG :=
  let (pos, g) := getRandomPosition w h CONFIG.shapes.maxSize g
  let (_acquired, pool1) := st.shapePool.get
  let (ty, g) := ShapeManager.getShapeType k g
  let (col, g) := getRandomColor g
  let eff := if k.effect = "" then "normal" else k.effect
  let (shape, g) := Shape.init env now pos.1 pos.2 ty col eff g
  let shapes1 := st.shapes ++ [shape]
  if CONFIG.shapes.maxActiveShapes < shapes1.length then
    (⟨shapes1.tail, pool1.release shapes1.headI⟩, shape, g)
  else
    (⟨shapes1, pool1⟩, shape, g)

/-- shapes.js `ShapeManager.update(deltaTime)`: steps every live shape,
keeps the ones whose step reports alive and releases the others to the
pool in the same call. -/
def ShapeManager.update (env : MathEnv) (now dt : ℚ)
    (st : ShapeManagerState) : ShapeManagerState :=
  let stepped := st.shapes.map (fun s => Shape.update env now dt s)
  let dead := (stepped.filter (fun r => !r.2)).map (fun r => r.1)
  ⟨(stepped.filter (fun r => r.2)).map (fun r => r.1),
   dead.foldl ObjectPool.release st.shapePool⟩

/-- shapes.js `ShapeManager.clear()`: releases every live shape to the
pool and empties the collection. -/
def ShapeManager.clear (st : ShapeManagerState) : ShapeManagerState :=
  ⟨[], st.shapes.foldl ObjectPool.release st.shapePool⟩

/-- A sequence of `createShape` calls (each with its own stimulus and
timestamp) folded over the manager state. -/
def ShapeManager.applySpawns (env : MathEnv) (w h : ℚ)
    (inputs : List (ℚ × KeyInfo)) (st : ShapeManagerState) (g : RNG) :
    ShapeManagerState × RNG :=
  match inputs with
  | [] => (st, g)
  | (now, k) :: rest =>
    let (st, _, g) := ShapeManager.createShape env w h now k st g
    ShapeManager.applySpawns env w h rest st g

/-- A color value: either a fixed hex string or an
`hsla(hue, saturation%, lightness%, alpha)` value (particles.js
`updateColor` builds the latter). -/
inductive Color where
  | hex (s : String)
  | hsla (h s l a : ℚ)
  deriving DecidableEq

/-- particles.js `Particle`: a pooled entity with full 2D physics. -/
structure Particle where
  x : ℚ
  y : ℚ
  vx : ℚ
  vy : ℚ
  size : ℚ
  maxSize : ℚ
  color : Color
  alpha : ℚ
  life : ℚ
  maxLife : ℚ
  decay : ℚ
  gravity : ℚ
  friction : ℚ
  isActive : Bool
  hue : ℚ
  saturation : ℚ
  lightness : ℚ
  rotationSpeed : ℚ
  rotation : ℚ
  type : String
  deriving DecidableEq

/-- The field values assigned by particles.js `Particle.reset()` (which
overwrites every field; the `Particle` constructor also calls it). -/
def Particle.blank : Particle where
  x := 0
  y := 0
  vx := 0
  vy := 0
  size := 0
  maxSize := 0
  color := Color.hex "#FF6B6B"
  alpha := 1
  life := 1
  maxLife := 1
  decay := 0.02
  gravity := 0
  friction := 0.98
  isActive := false
  hue := 0
  saturation := 70
  lightness := 60
  rotationSpeed := 0
  rotation := 0
  type := "circle"

instance : Inhabited Particle := ⟨Particle.blank⟩

/-- particles.js `Particle.reset()`. -/
def Particle.reset (_p : Particle) : Particle := Particle.blank

/-- particles.js `Particle.updateColor()`:
`color = hsla(hue, saturation%, lightness%, alpha)`. -/
def Particle.updateColor (p : Particle) : Particle :=
  { p with color := Color.hsla p.hue p.saturation p.lightness p.alpha }

/-- The options object taken by particles.js `Particle.init`, with the
`||`-defaults the code applies (`'circle'`, `false`, `1`). -/
structure ParticleOptions where
  type : String := "circle"
  isClickParticle : Bool := false
  burstIntensity : ℚ := 1

/-- particles.js `Particle.init(x, y, options)`: resets, then draws
lifetime, size, velocity, physics and visual properties in source
order. -/
def Particle.init (env : MathEnv) (x y : ℚ) (opts : ParticleOptions)
    (g : RNG) : Particle × RNG :=
  let (lifeSize, g) :=
    if opts.isClickParticle then
      let (ml, g) := randomBetween 2000 6000 g
      let (ms, g) := randomBetween CONFIG.particles.maxSize
        (CONFIG.particles.maxSize * 2.5) g
      ((ml, ms), g)
    else
      let (ml, g) := randomBetween 1000 4000 g
      let (ms, g) := randomBetween CONFIG.particles.minSize
        CONFIG.particles.maxSize g
      ((ml, ms), g)
  let (vel, g) :=
    if opts.isClickParticle then
      let (angle, g) := randomBetween 0 (env.pi * 2) g
      let (speed0, g) := randomBetween 3 10 g
      let speed := speed0 * opts.burstIntensity
      ((env.cos angle * speed, env.sin angle * speed), g)
    else
      let (vx, g) := randomBetween (-1) 1 g
      let (vy, g) := randomBetween (-2) 0.5 g
      ((vx, vy), g)
  let (grav, g) :=
    if opts.isClickParticle then randomBetween 0.02 0.08 g
    else randomBetween 0.05 0.15 g
  let (fric, g) := randomBetween 0.95 0.99 g
  let (hue, g) := randomBetween 0 360 g
  let (rsp0, g) := randomBetween (-0.15) 0.15 g
  let rsp := if opts.isClickParticle then rsp0 * 2 else rsp0
  let p : Particle :=
    { Particle.blank with
        x := x, y := y, isActive := true, type := opts.type,
        maxLife := lifeSize.1, maxSize := lifeSize.2,
        life := lifeSize.1, size := 0,
        vx := vel.1, vy := vel.2,
        gravity := grav, friction := fric,
        hue := hue, rotationSpeed := rsp }
  (p.updateColor, g)

/-- particles.js `Particle.update(deltaTime)`: physics step (position
first with the pre-step velocities, then gravity, then friction),
rotation, time-based life decay, size/alpha animation, hue cycling, and
the death check `life <= 0 || size <= 0`. -/
def Particle.update (dt : ℚ) (p : Particle) : Particle × Bool :=
  if !p.isActive then (p, false)
  else
    let x := p.x + p.vx * dt * 0.06
    let y := p.y + p.vy * dt * 0.06
    let vy0 := p.vy + p.gravity * dt * 0.06
    let vx := p.vx * p.friction
    let vy := vy0 * p.friction
    let rotation := p.rotation + p.rotationSpeed * dt * 0.1
    let life := p.life - dt
    let lifeProgress := 1 - max 0 (life / p.maxLife)
    let size :=
      if lifeProgress < 0.15 then
        p.maxSize * easeOut (lifeProgress / 0.15)
      else if 0.85 < lifeProgress then
        p.maxSize * (1 - easeOut ((lifeProgress - 0.85) / 0.15))
      else
        p.maxSize
    let alpha := max 0 (life / p.maxLife)
    let hue := jsMod (p.hue + dt * 0.05) 360
    let q : Particle :=
      ({ p with x := x, y := y, vx := vx, vy := vy, rotation := rotation,
                life := life, size := size, alpha := alpha,
                hue := hue }).updateColor
    if decide (q.life ≤ 0) || decide (q.size ≤ 0) then
      ({ q with isActive := false }, false)
    else (q, true)

/-- particles.js `ParticleSystem` state: live particles, the particle
pool, cursor tracking, the constant-emission timer and the canvas
bounds. -/
structure ParticleSystemState where
  particles : List Particle
  particlePool : ObjectPool Particle
  mouseX : ℚ
  mouseY : ℚ
  constantEmitRate : ℚ
  lastConstantEmitTime : ℚ
  maxClickParticles : ℕ
  canvasWidth : ℚ
  canvasHeight : ℚ

/-- The `ParticleSystem` constructor: empty live collection, pool
pre-warmed with 50 instances, cursor at the canvas center, 120 ms
constant-emission interval, 20 particles per click. -/
def ParticleSystem.initState (w h : ℚ) : ParticleSystemState :=
  ⟨[], ObjectPool.make (fun _ => Particle.blank) Particle.reset 50,
   w / 2, h / 2, 120, 0, 20, w, h⟩

/-- particles.js `ParticleSystem.createParticle(x, y, options)`: evicts
the oldest live particle when the collection is at
`maxActiveParticles`, then acquires, initializes and pushes. -/
def ParticleSystem.createParticle (env : MathEnv) (x y : ℚ)
    (opts : ParticleOptions) (st : ParticleSystemState) (g : RNG) :
    ParticleSystemState × Particle × RNG :=
  let st :=
    if CONFIG.particles.maxActiveParticles ≤ st.particles.length then
      { st with particles := st.particles.tail,
                particlePool := st.particlePool.release st.particles.headI }
    else st
  let (_acquired, pool1) := st.particlePool.get
  let (p, g) := Particle.init env x y opts g
  ({ st with particles := st.particles ++ [p], particlePool := pool1 }, p, g)

/-- The per-particle body of particles.js `createConstantParticles`:
random offset around the cursor, clamping of the position into the
canvas bounds, random type, then `createParticle`. -/
def ParticleSystem.constantEmitLoop (env : MathEnv) :
    ℕ → ParticleSystemState → RNG → ParticleSystemState × RNG
  | 0, st, g => (st, g)
  | n + 1, st, g =>
    let (angle, g) := randomBetween 0 (env.pi * 2) g
    let (dist, g) := randomBetween 10 50 g
    let x := st.mouseX + env.cos angle * dist
    let y := st.mouseY + env.sin angle * dist
    let clampedX := max 0 (min x st.canvasWidth)
    let clampedY := max 0 (min y st.canvasHeight)
    let (r, g) := g.next
    let ty := listGetJs ["circle", "sparkle"] ⌊r * 2⌋
    let (st, _, g) := ParticleSystem.createParticle env clampedX clampedY
      { type := ty, isClickParticle := false } st g
    ParticleSystem.constantEmitLoop env n st g

/-- particles.js `ParticleSystem.createConstantParticles()`: no-op
before the 120 ms emission interval has elapsed, otherwise emits
`randomIntBetween(1, 3)` particles around the cursor with clamped
positions. -/
def ParticleSystem.createConstantParticles (env : MathEnv) (now : ℚ)
    (st : ParticleSystemState) (g : RNG) : ParticleSystemState × RNG :=
  if now - st.lastConstantEmitTime < st.constantEmitRate then (st, g)
  else
    let st := { st with lastConstantEmitTime := now }
    let (particleCount, g) := randomIntBetween 1 3 g
    ParticleSystem.constantEmitLoop env particleCount.toNat st g

/-- The per-particle body of particles.js `createClickEffect`: random
type from the button-specific list, then `createParticle` at the click
position (no clamping). -/
def ParticleSystem.clickEffectLoop (env : MathEnv) (x y : ℚ)
    (types : List String) (intensity : ℚ) :
    ℕ → ParticleSystemState → RNG → ParticleSystemState × RNG
  | 0, st, g => (st, g)
  | n + 1, st, g =>
    let (r, g) := g.next
    let ty := listGetJs types ⌊r * (types.length : ℚ)⌋
    let (st, _, g) := ParticleSystem.createParticle env x y
      { type := ty, isClickParticle := true, burstIntensity := intensity } st g
    ParticleSystem.clickEffectLoop env x y types intensity n st g

/-- particles.js `ParticleSystem.createClickEffect(x, y, button)`: a
radial burst of `floor(maxClickParticles * intensity)` click particles
at the supplied position, intensity and type list depending on the
button. -/
def ParticleSystem.createClickEffect (env : MathEnv) (x y : ℚ)
    (button : ℕ) (st : ParticleSystemState) (g : RNG) :
    ParticleSystemState × RNG :=
  let effectIntensity : ℚ :=
    if button = 0 then 1.5 else if button = 1 then 2
    else if button = 2 then 2.5 else 1
  let particleTypes : List String :=
    if button = 0 then ["star", "heart"]
    else if button = 1 then ["sparkle", "star"]
    else if button = 2 then ["heart", "star", "sparkle"]
    else ["star", "heart", "sparkle"]
  let particleCount := (⌊(st.maxClickParticles : ℚ) * effectIntensity⌋).toNat
  ParticleSystem.clickEffectLoop env x y particleTypes effectIntensity
    particleCount st g

/-- Whether particles.js `ParticleSystem.update` removes a particle as
off-screen: strictly more than the 100-pixel buffer outside the canvas
bounds. -/
def ParticleSystem.offScreen (w h : ℚ) (p : Particle) : Bool :=
  decide (p.x < -100) || decide (w + 100 < p.x) ||
  decide (p.y < -100) || decide (h + 100 < p.y)

/-- particles.js `ParticleSystem.update(deltaTime)`: constant emission,
then steps every particle releasing the expired ones, then releases the
off-screen ones — all within the same call. -/
def ParticleSystem.update (env : MathEnv) (now dt : ℚ)
    (st : ParticleSystemState) (g : RNG) : ParticleSystemState × RNG :=
  let st1 := (ParticleSystem.createConstantParticles env now st g).1
  let g1 := (ParticleSystem.createConstantParticles env now st g).2
  let stepped := st1.particles.map (Particle.update dt)
  let dead := (stepped.filter (fun r => !r.2)).map (fun r => r.1)
  let alive := (stepped.filter (fun r => r.2)).map (fun r => r.1)
  let pool1 := dead.foldl ObjectPool.release st1.particlePool
  let out := alive.filter (fun p =>
    ParticleSystem.offScreen st1.canvasWidth st1.canvasHeight p)
  let kept := alive.filter (fun p =>
    !ParticleSystem.offScreen st1.canvasWidth st1.canvasHeight p)
  ({ st1 with particles := kept,
              particlePool := out.foldl ObjectPool.release pool1 }, g1)

/-- particles.js `ParticleSystem.clear()`: releases every live particle
to the pool and empties the collection. -/
def ParticleSystem.clear (st : ParticleSystemState) : ParticleSystemState :=
  { st with particles := [],
            particlePool := st.particles.foldl ObjectPool.release
              st.particlePool }

/-- A sequence of `createParticle` calls folded over the system state. -/
def ParticleSystem.applySpawns (env : MathEnv)
    (inputs : List (ℚ × ℚ × ParticleOptions)) (st : ParticleSystemState)
    (g : RNG) : ParticleSystemState × RNG :=
  match inputs with
  | [] => (st, g)
  | (x, y, opts) :: rest =>
    let (st, _, g) := ParticleSystem.createParticle env x y opts st g
    ParticleSystem.applySpawns env rest st g

/-- sounds.js `SOUND_TYPES`: duration (seconds) and volume per sound
type. -/
def SOUND_TYPES : List (String × ℚ × ℚ) :=
  [("note", 0.6, 0.7), ("chime", 1.2, 0.5), ("bell", 0.8, 0.6),
   ("toy", 0.4, 0.8), ("sparkle", 0.3, 0.4), ("explosion", 1.0, 0.9),
   ("fireworks", 1.5, 0.6)]

/-- The id sounds.js builds for an active sound
(`type_now_random`). -/
def SoundId : Type := String × ℚ × ℚ

instance : DecidableEq SoundId := by
  unfold SoundId
  infer_instance

/-- sounds.js `SoundManager` state: enable flag, master volume, the set
of active sound ids, the concurrency cap and the Web-Audio
availability flag. -/
structure SoundManagerState where
  isEnabled : Bool
  volume : ℚ
  activeSounds : List SoundId
  maxConcurrentSounds : ℕ
  useWebAudio : Bool

/-- The `SoundManager` constructor field values. -/
def SoundManager.initState (useWebAudio : Bool) : SoundManagerState :=
  ⟨true, CONFIG.audio.volume, [], CONFIG.audio.maxConcurrentSounds,
   useWebAudio⟩

/-- One realized audio signal: waveform family keyed by the sound type,
base frequency, duration and effective volume. -/
structure PlayedSignal where
  kind : String
  frequency : ℚ
  duration : ℚ
  volume : ℚ
  viaWebAudio : Bool

/-- sounds.js `playWebAudioSound(type, frequency, options)`: resolves
the type's duration/volume, registers a fresh sound id as active and
realizes one signal.  `now` models `audioContext.currentTime` and
`rand` the `Math.random()` in the sound id. -/
def SoundManager.playWebAudioSound (ty : String) (frequency now rand : ℚ)
    (st : SoundManagerState) : SoundManagerState × Option PlayedSignal :=
  let config := ((SOUND_TYPES.lookup ty).getD (0.6, 0.7))
  let duration := config.1
  let volume := config.2 * st.volume
  let soundId : SoundId := (ty, now, rand)
  ({ st with activeSounds := st.activeSounds ++ [soundId] },
   some ⟨ty, frequency, duration, volume, true⟩)

/-- sounds.js `playFallbackSound`: a stub that produces no signal. -/
def SoundManager.playFallbackSound (_ty : String) (_frequency : ℚ)
    (st : SoundManagerState) : SoundManagerState × Option PlayedSignal :=
  (st, none)

/-- sounds.js `SoundManager.playSound(type, frequency)`: no-op when
disabled; silent no-op (nothing queued, nothing thrown — the model is a
total function) when `activeSounds.size >= maxConcurrentSounds`;
otherwise realizes the signal through the Web-Audio or fallback
path. -/
def SoundManager.playSound (ty : String) (frequency now rand : ℚ)
    (st : SoundManagerState) : SoundManagerState × Option PlayedSignal :=
  if !st.isEnabled then (st, none)
  else if st.maxConcurrentSounds ≤ st.activeSounds.length then (st, none)
  else if st.useWebAudio then
    SoundManager.playWebAudioSound ty frequency now rand st
  else
    SoundManager.playFallbackSound ty frequency st

/-- main.js game-loop state relevant to frame timing: the running and
paused flags and the timestamp of the last active frame. -/
structure GameLoopState where
  isRunning : Bool
  isPaused : Bool
  lastFrameTime : ℚ

/-- One invocation of the main.js `gameLoop(currentTime)` callback:
when stopped or paused it only re-schedules itself (returning no
elapsed time and leaving `lastFrameTime` untouched); when active it
computes `deltaTime = currentTime - lastFrameTime`, stores
`currentTime` as the new `lastFrameTime` and steps the game by
`deltaTime`. -/
def gameLoopTick (currentTime : ℚ) (s : GameLoopState) :
    GameLoopState × Option ℚ :=
  if !s.isRunning || s.isPaused then (s, none)
  else ({ s with lastFrameTime := currentTime },
        some (currentTime - s.lastFrameTime))

/-- main.js `handleVisibilityChange()`: hides pause the game, becoming
visible resumes it if it is running. -/
def handleVisibilityChange (hidden : Bool) (s : GameLoopState) :
    GameLoopState :=
  if hidden then { s with isPaused := true }
  else if s.isRunning then { s with isPaused := false }
  else s

/-- Modelled from the spec: the particle physics sequence as the
specification words it — `vy += gravity*dt*k; vx *= friction;
vy *= friction; x += vx*dt*k; y += vy*dt*k` for a scale constant `k`
(the velocity damping happens before the position update).  Returns
the resulting `(x, y, vx, vy)`.  Written to be compared against
`Particle.update`, which is translated from the source. -/
def specPhysicsStep (k dt : ℚ) (p : Particle) : ℚ × ℚ × ℚ × ℚ :=
  let vy1 := p.vy + p.gravity * dt * k
  let vx2 := p.vx * p.friction
  let vy2 := vy1 * p.friction
  (p.x + vx2 * dt * k, p.y + vy2 * dt * k, vx2, vy2)

/-! ## Helper lemmas -/

/-- Releasing a list of instances appends their reset images to the
free-list. -/
theorem ObjectPool.foldl_release_pool {T : Type} (l : List T)
    (P : ObjectPool T) :
    (l.foldl ObjectPool.release P).pool = P.pool ++ l.map P.resetFn := by
  induction l generalizing P with
  | nil => simp
  | cons a l ih =>
    simp only [List.foldl_cons, List.map_cons, ih, ObjectPool.release,
      List.append_assoc, List.singleton_append]

/-- Folded releases do not change the reset function. -/
theorem ObjectPool.foldl_release_resetFn {T : Type} (l : List T)
    (P : ObjectPool T) :
    (l.foldl ObjectPool.release P).resetFn = P.resetFn := by
  induction l generalizing P with
  | nil => rfl
  | cons a l ih => simp only [List.foldl_cons, ih, ObjectPool.release]

/-- Acquiring from a pool does not change the reset function. -/
theorem ObjectPool.get_resetFn {T : Type} (P : ObjectPool T) :
    P.get.2.resetFn = P.resetFn := by
  unfold ObjectPool.get
  cases P.pool.getLast? <;> rfl

/-- An all-zero model of the `Math` environment, used to instantiate
universally quantified theorems on concrete inputs. -/
def envZero : MathEnv := ⟨0, fun _ => 0, fun _ => 0⟩

/-- The all-zero draw stream, used to instantiate universally
quantified theorems on concrete inputs. -/
def rngZero : RNG := ⟨fun _ => 0, 0⟩

theorem rngZero_valid : rngZero.Valid := by
  intro n
  constructor <;> norm_num [rngZero]

/-! ## Claim theorems -/

/-- C10: `ObjectPool.release(o)` applies the reset function to `o` and
pushes it onto the free-list; an immediately following `get()` returns
exactly that most-recently-released (reset) instance, leaving the rest
of the free-list unchanged (LIFO); `get()` on an empty free-list
returns a newly created instance and never fails (it is a total
function). -/
theorem c10_pool_release_get_lifo :
    ∀ (T : Type) (P : ObjectPool T) (o : T),
      (P.release o).pool = P.pool ++ [P.resetFn o]
      ∧ (P.release o).get = (P.resetFn o, P)
      ∧ (P.pool = [] → P.get = (P.createFn (), P)) := by
  intro T P o
  obtain ⟨c, r, l⟩ := P
  refine ⟨rfl, ?_, ?_⟩
  · simp [ObjectPool.get, ObjectPool.release, List.getLast?_concat]
  · intro h
    subst h
    simp [ObjectPool.get]

/-- Witness for C10 at a concrete pool over `ℕ`. -/
theorem c10_pool_release_get_lifo_witness :
    ((ObjectPool.mk (fun _ => (7 : ℕ)) id [1, 2]).release 3).pool = [1, 2, 3]
    ∧ ((ObjectPool.mk (fun _ => (7 : ℕ)) id [1, 2]).release 3).get
        = (3, ObjectPool.mk (fun _ => (7 : ℕ)) id [1, 2])
    ∧ (ObjectPool.mk (fun _ => (7 : ℕ)) id []).get
        = (7, ObjectPool.mk (fun _ => (7 : ℕ)) id []) := by
  have h1 := c10_pool_release_get_lifo ℕ (ObjectPool.mk (fun _ => 7) id [1, 2]) 3
  have h2 := c10_pool_release_get_lifo ℕ (ObjectPool.mk (fun _ => 7) id []) 3
  exact ⟨h1.1, h1.2.1, h2.2.2 rfl⟩

/-- C4: a `Shape` initialized with effect `explosion` gets lifespan
`CONFIG.shapes.animationDuration * 1.5 = 4500` ms, and its `update`
reports it alive at age 4499 ms and expired at age 4501 ms, whatever
the random draws and the `Math` environment. -/
theorem c4_explosion_lifespan :
    ∀ (env : MathEnv) (x y : ℚ) (ty col : String) (g : RNG) (dt1 dt2 : ℚ),
      (Shape.init env 0 x y ty col "explosion" g).1.lifespan = 4500
      ∧ (Shape.update env 4499 dt1
          (Shape.init env 0 x y ty col "explosion" g).1).2 = true
      ∧ (Shape.update env 4501 dt2
          (Shape.init env 0 x y ty col "explosion" g).1).2 = false := by
  intro env x y ty col g dt1 dt2
  refine ⟨?_, ?_, ?_⟩ <;>
    simp [Shape.init, Shape.initEffect, Shape.update, Shape.updateEffect,
      Shape.blank, randomBetween, RNG.next, CONFIG.shapes.animationDuration,
      CONFIG.shapes.fadeOutDuration, CONFIG.shapes.minSize,
      CONFIG.shapes.maxSize] <;>
    norm_num

/-- C6: under `getShapeType`, lowercase letters map deterministically by
alphabetic index modulo the 5 shape types — so `a` (index 0) and `k`
(index 10) map to the same subtype — and every uppercase letter maps
to the fixed subtype `star`. -/
theorem c6_letter_shape_mapping :
    (∀ (g1 g2 : RNG) (e1 e2 : String),
      (ShapeManager.getShapeType ⟨"letter", 'a', e1⟩ g1).1
        = (ShapeManager.getShapeType ⟨"letter", 'k', e2⟩ g2).1)
    ∧ (∀ (n : Fin 26) (g : RNG) (e : String),
      (ShapeManager.getShapeType ⟨"letter", Char.ofNat (97 + (n : ℕ)), e⟩ g).1
        = CONFIG.shapes.types.getD
            ((n : ℕ) % CONFIG.shapes.types.length) "undefined")
    ∧ (∀ (n : Fin 26) (g : RNG) (e : String),
      (ShapeManager.getShapeType ⟨"letter", Char.ofNat (65 + (n : ℕ)), e⟩ g).1
        = "star") := by
  refine ⟨?_, ?_, ?_⟩
  · intro g1 g2 e1 e2
    simp only [ShapeManager.getShapeType]
    rfl
  · intro n
    fin_cases n <;> intro g e <;> simp only [ShapeManager.getShapeType] <;> rfl
  · intro n
    fin_cases n <;> intro g e <;> simp only [ShapeManager.getShapeType] <;> rfl

/-- C5: a `playSound` request arriving while the configured maximum of
concurrent sounds (5 by default) is already active is a silent no-op:
the state is unchanged (nothing queued) and no signal is produced; the
model is a total function, so nothing is thrown. -/
theorem c5_sound_cap_silent_noop :
    CONFIG.audio.maxConcurrentSounds = 5
    ∧ (∀ b, (SoundManager.initState b).maxConcurrentSounds = 5)
    ∧ (∀ (st : SoundManagerState) (ty : String) (freq now rand : ℚ),
        st.maxConcurrentSounds ≤ st.activeSounds.length →
        SoundManager.playSound ty freq now rand st = (st, none)) := by
  refine ⟨rfl, fun b => rfl, ?_⟩
  intro st ty freq now rand h
  unfold SoundManager.playSound
  rcases hE : st.isEnabled with _ | _
  · simp [hE]
  · simp [hE, h]

/-- Witness for C5: the sixth concurrent request on a full manager. -/
theorem c5_sound_cap_silent_noop_witness :
    SoundManager.playSound "note" 440 0 0
      ⟨true, 0.7, [("a", 0, 0), ("b", 0, 0), ("c", 0, 0), ("d", 0, 0),
                   ("e", 0, 0)], 5, true⟩
      = (⟨true, 0.7, [("a", 0, 0), ("b", 0, 0), ("c", 0, 0), ("d", 0, 0),
                      ("e", 0, 0)], 5, true⟩, none) := by
  exact c5_sound_cap_silent_noop.2.2 _ "note" 440 0 0 (by simp)

/-- C2 counterexample: the game loop does NOT freeze time-delta
accumulation across a pause.  Concrete run: an active frame at t=16,
the tab hides (pause), a paused tick at t=1016 leaves the state
untouched, the tab shows again (resume), and the first active tick at
t=60016 computes `dt = 60016 - 16 = 60000` — exactly the wall-clock
paused interval T = 60000, not a bounded normal frame interval. -/
theorem c2_pause_catchup_counterexample :
    (gameLoopTick 60016
      (handleVisibilityChange false
        ((gameLoopTick 1016
          (handleVisibilityChange true
            ((gameLoopTick 16 ⟨true, false, 0⟩).1))).1))).2 = some 60000
    ∧ ¬ ((60000 : ℚ) ≤ 100) := by
  constructor
  · simp [gameLoopTick, handleVisibilityChange]
    norm_num
  · norm_num

/-- C2 amended: while paused (or stopped) a tick leaves
`lastFrameTime` untouched and produces no elapsed time; the first
active tick after resume therefore computes
`dt = currentTime - lastFrameTime` measured from the last ACTIVE frame,
so `dt` includes the entire paused wall-clock interval (a catch-up
first step) instead of being bounded by a normal frame interval. -/
theorem c2_resume_delta_is_full_gap :
    ∀ (s : GameLoopState) (t : ℚ),
      (s.isRunning = true → s.isPaused = false →
        gameLoopTick t s
          = ({ s with lastFrameTime := t }, some (t - s.lastFrameTime)))
      ∧ (s.isPaused = true → gameLoopTick t s = (s, none)) := by
  intro s t
  constructor
  · intro h1 h2
    simp [gameLoopTick, h1, h2]
  · intro h
    simp [gameLoopTick, h]

/-- Witness for the amended C2 on concrete states. -/
theorem c2_resume_delta_is_full_gap_witness :
    gameLoopTick 100 ⟨true, false, 5⟩ = (⟨true, false, 100⟩, some 95)
    ∧ gameLoopTick 100 ⟨true, true, 5⟩ = (⟨true, true, 5⟩, none) := by
  constructor
  · have h := (c2_resume_delta_is_full_gap ⟨true, false, 5⟩ 100).1 rfl rfl
    rw [h]
    norm_num
  · exact (c2_resume_delta_is_full_gap ⟨true, true, 5⟩ 100).2 rfl

/-- C7: `clear()` twice in a row on either manager leaves the live
collection empty after each call; the first clear releases each live
entity to the pool exactly once (the free-list is extended by exactly
the reset images of the live list), and the second clear releases
nothing (the pool is unchanged), so no entity is double-released. -/
theorem c7_clear_idempotent :
    ∀ (st : ShapeManagerState) (pt : ParticleSystemState),
      (ShapeManager.clear st).shapes = []
      ∧ (ShapeManager.clear (ShapeManager.clear st)).shapes = []
      ∧ (ShapeManager.clear (ShapeManager.clear st)).shapePool
          = (ShapeManager.clear st).shapePool
      ∧ (ShapeManager.clear st).shapePool.pool
          = st.shapePool.pool ++ st.shapes.map st.shapePool.resetFn
      ∧ (ParticleSystem.clear pt).particles = []
      ∧ (ParticleSystem.clear (ParticleSystem.clear pt)).particles = []
      ∧ (ParticleSystem.clear (ParticleSystem.clear pt)).particlePool
          = (ParticleSystem.clear pt).particlePool
      ∧ (ParticleSystem.clear pt).particlePool.pool
          = pt.particlePool.pool ++ pt.particles.map pt.particlePool.resetFn := by
  intro st pt
  refine ⟨rfl, rfl, rfl, ?_, rfl, rfl, rfl, ?_⟩
  · exact ObjectPool.foldl_release_pool st.shapes st.shapePool
  · exact ObjectPool.foldl_release_pool pt.particles pt.particlePool

/-- A concrete active particle used to separate the source physics step
from the spec-ordered one. -/
def testParticle : Particle :=
  { Particle.blank with isActive := true, vx := 1, gravity := 1 / 10,
                        friction := 24 / 25 }

/-- C9 counterexample: no scale constant `k` makes the spec-ordered
physics sequence (`vy += gravity*dt*k; vx *= friction; vy *= friction;
x += vx*dt*k; y += vy*dt*k`) agree with the source `Particle.update`
step, which updates the position FIRST using the pre-step velocities
and only then applies gravity and friction.  At
`testParticle` (x=y=vy=0, vx=1, gravity=1/10, friction=24/25) with
dt=100 the source step gives x=6 and y=0, while the spec order gives
x=96k and y=960k², which no `k` reconciles. -/
theorem c9_physics_spec_order_counterexample :
    ¬ ∃ k : ℚ, ∀ (p : Particle) (dt : ℚ), p.isActive = true →
        ((Particle.update dt p).1.x, (Particle.update dt p).1.y,
         (Particle.update dt p).1.vx, (Particle.update dt p).1.vy)
          = specPhysicsStep k dt p := by
  rintro ⟨k, h⟩
  have h1 := h testParticle 100 rfl
  have hx := congrArg (fun q : ℚ × ℚ × ℚ × ℚ => q.1) h1
  have hy := congrArg (fun q : ℚ × ℚ × ℚ × ℚ => q.2.1) h1
  simp only [specPhysicsStep, testParticle, Particle.blank] at hx hy
  norm_num [Particle.update, Particle.updateColor, testParticle,
    Particle.blank, jsMod, ratTrunc, easeOut] at hx hy
  have hk : k = 1 / 16 := by linarith
  rw [hk] at hy
  norm_num at hy

/-- C9 amended: every update step of an ACTIVE particle applies, in
this order, `x += vx*dt*k; y += vy*dt*k; vy += gravity*dt*k;
vx *= friction; vy *= friction` with the fixed scale constant
`k = 0.06` — the position update uses the pre-step velocities, and
gravity/friction are applied after it (not before, as the spec words
it).  The direction contract holds: `init` always draws a strictly
positive gravity (pulling downward, increasing y) and a friction
strictly between 0 and 1 (damping velocity). -/
theorem c9_physics_step_order :
    (∀ (p : Particle) (dt : ℚ), p.isActive = true →
       (Particle.update dt p).1.x = p.x + p.vx * dt * 0.06
       ∧ (Particle.update dt p).1.y = p.y + p.vy * dt * 0.06
       ∧ (Particle.update dt p).1.vx = p.vx * p.friction
       ∧ (Particle.update dt p).1.vy
           = (p.vy + p.gravity * dt * 0.06) * p.friction)
    ∧ (∀ (env : MathEnv) (x y : ℚ) (opts : ParticleOptions) (g : RNG),
       g.Valid →
       0 < (Particle.init env x y opts g).1.gravity
       ∧ 0 < (Particle.init env x y opts g).1.friction
       ∧ (Particle.init env x y opts g).1.friction < 1) := by
  constructor
  · intro p dt hp
    unfold Particle.update Particle.updateColor
    rw [hp]
    refine ⟨?_, ?_, ?_, ?_⟩
    · simp only [Bool.not_true, Bool.false_eq_true, if_false,
        apply_ite (fun r : Particle × Bool => r.1.x), ite_self]
    · simp only [Bool.not_true, Bool.false_eq_true, if_false,
        apply_ite (fun r : Particle × Bool => r.1.y), ite_self]
    · simp only [Bool.not_true, Bool.false_eq_true, if_false,
        apply_ite (fun r : Particle × Bool => r.1.vx), ite_self]
    · simp only [Bool.not_true, Bool.false_eq_true, if_false,
        apply_ite (fun r : Particle × Bool => r.1.vy), ite_self]
  · intro env x y opts g hg
    obtain ⟨h4lo, h4hi⟩ := hg (g.k + 4)
    obtain ⟨h5lo, h5hi⟩ := hg (g.k + 5)
    cases hc : opts.isClickParticle <;>
      · refine ⟨?_, ?_, ?_⟩ <;>
          · simp only [Particle.init, hc, randomBetween, RNG.next,
              Particle.updateColor, Bool.false_eq_true, if_false, if_true,
              Particle.blank]
            nlinarith [h4lo, h4hi, h5lo, h5hi]

/-- Witness for the amended C9 at concrete inputs. -/
theorem c9_physics_step_order_witness :
    (Particle.update 2 { Particle.blank with isActive := true }).1.vx
      = { Particle.blank with isActive := true }.vx
        * { Particle.blank with isActive := true }.friction
    ∧ 0 < (Particle.init envZero 3 4 {} rngZero).1.gravity := by
  exact ⟨(c9_physics_step_order.1 _ 2 rfl).2.2.1,
         (c9_physics_step_order.2 envZero 3 4 {} rngZero rngZero_valid).1⟩

/-- Characterization of `createShape`: the result is the push of one
new shape followed by the capacity check, over the pool after one
acquire. -/
theorem ShapeManager.createShape_char (env : MathEnv) (w h now : ℚ)
    (k : KeyInfo) (st : ShapeManagerState) (g : RNG) :
    ∃ (sh : Shape) (g2 : RNG),
      ShapeManager.createShape env w h now k st g
        = if CONFIG.shapes.maxActiveShapes < (st.shapes ++ [sh]).length then
            (⟨(st.shapes ++ [sh]).tail,
              (st.shapePool.get.2).release (st.shapes ++ [sh]).headI⟩, sh, g2)
          else
            (⟨st.shapes ++ [sh], st.shapePool.get.2⟩, sh, g2) :=
  ⟨_, _, rfl⟩

/-- Characterization of `createParticle`: evict-at-capacity, then push
the initialized particle, over the pool after one acquire. -/
theorem ParticleSystem.createParticle_char (env : MathEnv) (x y : ℚ)
    (opts : ParticleOptions) (st : ParticleSystemState) (g : RNG) :
    ∃ (st1 : ParticleSystemState),
      st1 = (if CONFIG.particles.maxActiveParticles ≤ st.particles.length then
              { st with particles := st.particles.tail,
                        particlePool := st.particlePool.release st.particles.headI }
             else st)
      ∧ ParticleSystem.createParticle env x y opts st g
        = ({ st1 with
               particles := st1.particles ++ [(Particle.init env x y opts g).1],
               particlePool := st1.particlePool.get.2 },
           (Particle.init env x y opts g).1,
           (Particle.init env x y opts g).2) :=
  ⟨_, rfl, rfl⟩

/-- One `createShape` call keeps the live collection within the shape
capacity. -/
theorem ShapeManager.createShape_length_le (env : MathEnv)
    (w h now : ℚ) (k : KeyInfo) (st : ShapeManagerState) (g : RNG)
    (hlen : st.shapes.length ≤ CONFIG.shapes.maxActiveShapes) :
    (ShapeManager.createShape env w h now k st g).1.shapes.length
      ≤ CONFIG.shapes.maxActiveShapes := by
  obtain ⟨sh, g2, hchar⟩ := ShapeManager.createShape_char env w h now k st g
  rw [hchar]
  split_ifs with hc
  · simp only [List.length_tail, List.length_append, List.length_singleton]
    omega
  · simp only [List.length_append, List.length_singleton] at hc ⊢
    omega

/-- Spawn sequences keep the live shape collection within capacity. -/
theorem ShapeManager.applySpawns_length_le (env : MathEnv) (w h : ℚ) :
    ∀ (inputs : List (ℚ × KeyInfo)) (st : ShapeManagerState) (g : RNG),
      st.shapes.length ≤ CONFIG.shapes.maxActiveShapes →
      (ShapeManager.applySpawns env w h inputs st g).1.shapes.length
        ≤ CONFIG.shapes.maxActiveShapes := by
  intro inputs
  induction inputs with
  | nil => intro st g hlen; exact hlen
  | cons i rest ih =>
    intro st g hlen
    obtain ⟨now, k⟩ := i
    simp only [ShapeManager.applySpawns]
    exact ih _ _ (ShapeManager.createShape_length_le env w h now k st g hlen)

/-- One `createParticle` call keeps the live collection within the
particle capacity. -/
theorem ParticleSystem.createParticle_length_le (env : MathEnv)
    (x y : ℚ) (opts : ParticleOptions) (st : ParticleSystemState) (g : RNG)
    (hlen : st.particles.length ≤ CONFIG.particles.maxActiveParticles) :
    (ParticleSystem.createParticle env x y opts st g).1.particles.length
      ≤ CONFIG.particles.maxActiveParticles := by
  obtain ⟨st1, hst1, hchar⟩ :=
    ParticleSystem.createParticle_char env x y opts st g
  rw [hchar, hst1]
  split_ifs with hc <;>
    simp only [List.length_append, List.length_tail, List.length_singleton] <;>
    simp only [CONFIG.particles.maxActiveParticles] at hc hlen ⊢ <;>
    omega

/-- Spawn sequences keep the live particle collection within
capacity. -/
theorem ParticleSystem.applySpawns_particles_le (env : MathEnv) :
    ∀ (inputs : List (ℚ × ℚ × ParticleOptions)) (st : ParticleSystemState)
      (g : RNG),
      st.particles.length ≤ CONFIG.particles.maxActiveParticles →
      (ParticleSystem.applySpawns env inputs st g).1.particles.length
        ≤ CONFIG.particles.maxActiveParticles := by
  intro inputs
  induction inputs with
  | nil => intro st g hlen; exact hlen
  | cons i rest ih =>
    intro st g hlen
    obtain ⟨x, y, opts⟩ := i
    simp only [ParticleSystem.applySpawns]
    exact ih _ _ (ParticleSystem.createParticle_length_le env x y opts st g hlen)

/-- C1: for every sequence of spawns from the initial manager state the
live collection stays within the fixed capacity (15 shapes / 100
particles); a spawn arriving with the collection at capacity evicts the
oldest (first-inserted) entity — the result is the old tail plus the
newly spawned entity at the end, the length is unchanged, and for
shapes the evicted instance's reset image is pushed onto the pool
free-list (for particles the released oldest instance is immediately
re-acquired by the same call, leaving the free-list as before).  In
particular, spawning particle #101 into a full system leaves particles
#2..#101 live with length still 100. -/
theorem c1_population_capacity :
    (∀ (env : MathEnv) (w h : ℚ) (inputs : List (ℚ × KeyInfo)) (g : RNG),
       (ShapeManager.applySpawns env w h inputs
         ShapeManager.initState g).1.shapes.length
         ≤ CONFIG.shapes.maxActiveShapes)
    ∧ (∀ (env : MathEnv) (inputs : List (ℚ × ℚ × ParticleOptions))
         (w h : ℚ) (g : RNG),
       (ParticleSystem.applySpawns env inputs
         (ParticleSystem.initState w h) g).1.particles.length
         ≤ CONFIG.particles.maxActiveParticles)
    ∧ (∀ (env : MathEnv) (w h now : ℚ) (k : KeyInfo)
         (st : ShapeManagerState) (g : RNG),
       st.shapes.length = CONFIG.shapes.maxActiveShapes →
       (ShapeManager.createShape env w h now k st g).1.shapes
           = st.shapes.tail
             ++ [(ShapeManager.createShape env w h now k st g).2.1]
       ∧ (ShapeManager.createShape env w h now k st g).1.shapes.length
           = CONFIG.shapes.maxActiveShapes
       ∧ (ShapeManager.createShape env w h now k st g).1.shapePool.pool.getLast?
           = some (st.shapePool.resetFn st.shapes.headI))
    ∧ (∀ (env : MathEnv) (x y : ℚ) (opts : ParticleOptions)
         (st : ParticleSystemState) (g : RNG),
       st.particles.length = CONFIG.particles.maxActiveParticles →
       (ParticleSystem.createParticle env x y opts st g).1.particles
           = st.particles.tail
             ++ [(ParticleSystem.createParticle env x y opts st g).2.1]
       ∧ (ParticleSystem.createParticle env x y opts st g).1.particles.length
           = CONFIG.particles.maxActiveParticles) := by
  refine ⟨?_, ?_, ?_, ?_⟩
  · intro env w h inputs g
    exact ShapeManager.applySpawns_length_le env w h inputs _ g
      (by simp [ShapeManager.initState])
  · intro env inputs w h g
    exact ParticleSystem.applySpawns_particles_le env inputs _ g
      (by simp [ParticleSystem.initState])
  · intro env w h now k st g hcap
    obtain ⟨sh, g2, hchar⟩ := ShapeManager.createShape_char env w h now k st g
    obtain ⟨a, rest, hs⟩ : ∃ a rest, st.shapes = a :: rest := by
      cases hsh : st.shapes with
      | nil =>
        rw [hsh] at hcap
        simp [CONFIG.shapes.maxActiveShapes] at hcap
      | cons a rest => exact ⟨a, rest, rfl⟩
    have hcond : CONFIG.shapes.maxActiveShapes
        < (st.shapes ++ [sh]).length := by
      simp [List.length_append, hcap]
    rw [hchar, if_pos hcond]
    refine ⟨?_, ?_, ?_⟩
    · simp [hs]
    · rw [hs] at hcap ⊢
      simp only [List.length_cons] at hcap
      simp [List.length_append]
      omega
    · simp [hs, ObjectPool.release, ObjectPool.get_resetFn,
        List.getLast?_concat]
  · intro env x y opts st g hcap
    obtain ⟨st1, hst1, hchar⟩ :=
      ParticleSystem.createParticle_char env x y opts st g
    have hcond : CONFIG.particles.maxActiveParticles ≤ st.particles.length :=
      le_of_eq hcap.symm
    rw [hchar, hst1, if_pos hcond]
    constructor
    · simp
    · simp only [List.length_append, List.length_tail, List.length_singleton]
      simp only [CONFIG.particles.maxActiveParticles] at hcap ⊢
      omega

/-- Witness for C1 at concrete full managers. -/
theorem c1_population_capacity_witness :
    ((ShapeManager.createShape envZero 800 600 0 ⟨"space", ' ', "explosion"⟩
        ⟨List.replicate 15 Shape.blank,
         ObjectPool.mk (fun _ => Shape.blank) Shape.reset []⟩ rngZero).1.shapes
      = (List.replicate 15 Shape.blank).tail
        ++ [(ShapeManager.createShape envZero 800 600 0 ⟨"space", ' ', "explosion"⟩
              ⟨List.replicate 15 Shape.blank,
               ObjectPool.mk (fun _ => Shape.blank) Shape.reset []⟩ rngZero).2.1])
    ∧ ((ParticleSystem.createParticle envZero 10 20 {}
        { ParticleSystem.initState 800 600 with
            particles := List.replicate 100 Particle.blank } rngZero).1.particles
      = (List.replicate 100 Particle.blank).tail
        ++ [(ParticleSystem.createParticle envZero 10 20 {}
              { ParticleSystem.initState 800 600 with
                  particles := List.replicate 100 Particle.blank } rngZero).2.1]) := by
  constructor
  · exact (c1_population_capacity.2.2.1 envZero 800 600 0 ⟨"space", ' ', "explosion"⟩
      ⟨List.replicate 15 Shape.blank,
       ObjectPool.mk (fun _ => Shape.blank) Shape.reset []⟩ rngZero
      (by simp [CONFIG.shapes.maxActiveShapes])).1
  · exact (c1_population_capacity.2.2.2 envZero 10 20 {}
      { ParticleSystem.initState 800 600 with
          particles := List.replicate 100 Particle.blank } rngZero
      (by simp [CONFIG.particles.maxActiveParticles])).1

/-- `Particle.init` stores the supplied position verbatim. -/
theorem Particle.init_pos (env : MathEnv) (x y : ℚ) (opts : ParticleOptions)
    (g : RNG) :
    (Particle.init env x y opts g).1.x = x
    ∧ (Particle.init env x y opts g).1.y = y :=
  ⟨rfl, rfl⟩

/-- `Shape.initEffect` never moves the shape. -/
theorem Shape.initEffect_pos (env : MathEnv) (s : Shape) (g : RNG) :
    (Shape.initEffect env s g).1.x = s.x
    ∧ (Shape.initEffect env s g).1.y = s.y := by
  unfold Shape.initEffect Shape.initSparkles
  split_ifs <;> exact ⟨rfl, rfl⟩

/-- `Shape.init` stores the supplied position verbatim. -/
theorem Shape.init_position (env : MathEnv) (now x y : ℚ) (ty col eff : String)
    (g : RNG) :
    (Shape.init env now x y ty col eff g).1.x = x
    ∧ (Shape.init env now x y ty col eff g).1.y = y := by
  unfold Shape.init
  exact ⟨(Shape.initEffect_pos env _ _).1, (Shape.initEffect_pos env _ _).2⟩

/-- A particle present after `createParticle` was either already live or
is the newly initialized one. -/
theorem ParticleSystem.createParticle_mem (env : MathEnv) (x y : ℚ)
    (opts : ParticleOptions) (st : ParticleSystemState) (g : RNG)
    (p : Particle)
    (hp : p ∈ (ParticleSystem.createParticle env x y opts st g).1.particles) :
    p ∈ st.particles ∨ p = (Particle.init env x y opts g).1 := by
  obtain ⟨st1, hst1, hchar⟩ :=
    ParticleSystem.createParticle_char env x y opts st g
  rw [hchar] at hp
  simp only [List.mem_append, List.mem_singleton] at hp
  rcases hp with hp | hp
  · left
    rw [hst1] at hp
    split_ifs at hp with hc
    · exact List.tail_subset _ hp
    · exact hp
  · right
    exact hp

/-- `createParticle` does not change the canvas bounds or the cursor. -/
theorem ParticleSystem.createParticle_frame (env : MathEnv) (x y : ℚ)
    (opts : ParticleOptions) (st : ParticleSystemState) (g : RNG) :
    (ParticleSystem.createParticle env x y opts st g).1.canvasWidth
        = st.canvasWidth
    ∧ (ParticleSystem.createParticle env x y opts st g).1.canvasHeight
        = st.canvasHeight
    ∧ (ParticleSystem.createParticle env x y opts st g).1.mouseX = st.mouseX
    ∧ (ParticleSystem.createParticle env x y opts st g).1.mouseY = st.mouseY := by
  obtain ⟨st1, hst1, hchar⟩ :=
    ParticleSystem.createParticle_char env x y opts st g
  rw [hchar, hst1]
  split_ifs <;> exact ⟨rfl, rfl, rfl, rfl⟩

/-- Particles appended by the constant-emission loop have their
positions clamped into the canvas bounds. -/
theorem ParticleSystem.constantEmitLoop_mem (env : MathEnv) :
    ∀ (n : ℕ) (st : ParticleSystemState) (g : RNG),
      0 ≤ st.canvasWidth → 0 ≤ st.canvasHeight →
      ∀ p ∈ (ParticleSystem.constantEmitLoop env n st g).1.particles,
        p ∈ st.particles
        ∨ (0 ≤ p.x ∧ p.x ≤ st.canvasWidth ∧ 0 ≤ p.y ∧ p.y ≤ st.canvasHeight) := by
  intro n
  induction n with
  | zero => intro st g _ _ p hp; exact Or.inl hp
  | succ m ih =>
    intro st g hw hh p hp
    simp only [ParticleSystem.constantEmitLoop] at hp
    obtain ⟨hW, hH, _, _⟩ := ParticleSystem.createParticle_frame env
      (max 0 (min (st.mouseX + env.cos ((randomBetween 0 (env.pi * 2) g).1)
          * (randomBetween 10 50 (randomBetween 0 (env.pi * 2) g).2).1)
        st.canvasWidth))
      (max 0 (min (st.mouseY + env.sin ((randomBetween 0 (env.pi * 2) g).1)
          * (randomBetween 10 50 (randomBetween 0 (env.pi * 2) g).2).1)
        st.canvasHeight))
      _ st _
    rcases ih _ _ (by rw [hW]; exact hw) (by rw [hH]; exact hh) p hp
      with hmem | hbounds
    · rcases ParticleSystem.createParticle_mem _ _ _ _ _ _ p hmem
        with hold | hnew
      · exact Or.inl hold
      · right
        obtain ⟨hx, hy⟩ := Particle.init_pos env
          (max 0 (min (st.mouseX + env.cos ((randomBetween 0 (env.pi * 2) g).1)
              * (randomBetween 10 50 (randomBetween 0 (env.pi * 2) g).2).1)
            st.canvasWidth))
          (max 0 (min (st.mouseY + env.sin ((randomBetween 0 (env.pi * 2) g).1)
              * (randomBetween 10 50 (randomBetween 0 (env.pi * 2) g).2).1)
            st.canvasHeight))
          _ _
        rw [hnew, hx, hy]
        refine ⟨le_max_left 0 _, max_le hw (min_le_right _ _),
                le_max_left 0 _, max_le hh (min_le_right _ _)⟩
    · rw [hW, hH] at hbounds
      exact Or.inr hbounds

/-- Particles appended by the click-effect loop sit exactly at the
supplied (unclamped) click position. -/
theorem ParticleSystem.clickEffectLoop_mem (env : MathEnv) (x y : ℚ)
    (types : List String) (intensity : ℚ) :
    ∀ (n : ℕ) (st : ParticleSystemState) (g : RNG),
      ∀ p ∈ (ParticleSystem.clickEffectLoop env x y types intensity n st g).1.particles,
        p ∈ st.particles ∨ (p.x = x ∧ p.y = y) := by
  intro n
  induction n with
  | zero => intro st g p hp; exact Or.inl hp
  | succ m ih =>
    intro st g p hp
    simp only [ParticleSystem.clickEffectLoop] at hp
    rcases ih _ _ p hp with hmem | hxy
    · rcases ParticleSystem.createParticle_mem _ _ _ _ _ _ p hmem
        with hold | hnew
      · exact Or.inl hold
      · right
        obtain ⟨hx, hy⟩ := Particle.init_pos env x y _ _
        rw [hnew, hx, hy]
        exact ⟨rfl, rfl⟩
    · exact Or.inr hxy

/-- The shape actually built by `createShape` is the `Shape.init` of the
random inset position. -/
theorem ShapeManager.createShape_newShape (env : MathEnv) (w h now : ℚ)
    (k : KeyInfo) (st : ShapeManagerState) (g : RNG) :
    (ShapeManager.createShape env w h now k st g).2.1
      = (Shape.init env now
          (getRandomPosition w h CONFIG.shapes.maxSize g).1.1
          (getRandomPosition w h CONFIG.shapes.maxSize g).1.2
          (ShapeManager.getShapeType k
            (getRandomPosition w h CONFIG.shapes.maxSize g).2).1
          (getRandomColor (ShapeManager.getShapeType k
            (getRandomPosition w h CONFIG.shapes.maxSize g).2).2).1
          (if k.effect = "" then "normal" else k.effect)
          (getRandomColor (ShapeManager.getShapeType k
            (getRandomPosition w h CONFIG.shapes.maxSize g).2).2).2).1 := by
  unfold ShapeManager.createShape
  simp only
    [apply_ite (fun r : ShapeManagerState × Shape × RNG => r.2.1), ite_self]

/-- An 800×600 particle system with no live particles, an empty pool
and one particle per click, used to exercise the click path on
concrete inputs. -/
def clickTestSystem : ParticleSystemState :=
  ⟨[], ObjectPool.mk (fun _ => Particle.blank) Particle.reset [],
   400, 300, 120, 0, 1, 800, 600⟩

/-- On `clickTestSystem`, `createParticle` appends exactly the newly
initialized particle, whose position is the supplied one. -/
theorem clickTestSystem_createParticle (g : RNG) :
    ((ParticleSystem.createParticle envZero 1500 300 ⟨"star", true, 1⟩
        clickTestSystem g).1.particles.map Particle.x) = [1500] := by
  obtain ⟨st1, hst1, hchar⟩ := ParticleSystem.createParticle_char envZero
    1500 300 ⟨"star", true, 1⟩ clickTestSystem g
  rw [hchar, hst1]
  norm_num [clickTestSystem, CONFIG.particles.maxActiveParticles,
    (Particle.init_pos envZero 1500 300 ⟨"star", true, 1⟩ g).1]

/-- C8 counterexample: click-effect particle creation does NOT clamp an
out-of-range position.  On an 800×600 canvas, a click effect requested
at (1500, 300) (with one particle per click) produces a live particle
at x = 1500, outside the canvas bounds. -/
theorem c8_click_position_not_clamped_counterexample :
    ((ParticleSystem.createClickEffect envZero 1500 300 5
        clickTestSystem rngZero).1.particles.map Particle.x) = [1500]
    ∧ ¬ ((1500 : ℚ) ≤ 800) := by
  constructor
  · simp only [ParticleSystem.createClickEffect, clickTestSystem]
    norm_num
    simp only [ParticleSystem.clickEffectLoop, rngZero, RNG.next, listGetJs]
    norm_num
    exact clickTestSystem_createParticle _
  · norm_num

/-- C8 amended: only the constant-emission path clamps — every particle
it creates has its position clamped into `[0, width] × [0, height]`;
click-effect particles are created exactly at the supplied position
with no clamping (so an out-of-range click position yields out-of-range
particles); shape creation ignores any supplied position entirely and
samples a random position inset by `maxSize` (120), hence within the
canvas bounds whenever the canvas is at least 240×240; every path is a
total function, so no request errors. -/
theorem c8_position_clamping :
    (∀ (env : MathEnv) (now : ℚ) (st : ParticleSystemState) (g : RNG),
       0 ≤ st.canvasWidth → 0 ≤ st.canvasHeight →
       ∀ p ∈ (ParticleSystem.createConstantParticles env now st g).1.particles,
         p ∈ st.particles
         ∨ (0 ≤ p.x ∧ p.x ≤ st.canvasWidth ∧ 0 ≤ p.y ∧ p.y ≤ st.canvasHeight))
    ∧ (∀ (env : MathEnv) (x y : ℚ) (button : ℕ)
         (st : ParticleSystemState) (g : RNG),
       ∀ p ∈ (ParticleSystem.createClickEffect env x y button st g).1.particles,
         p ∈ st.particles ∨ (p.x = x ∧ p.y = y))
    ∧ (∀ (env : MathEnv) (w h now : ℚ) (k : KeyInfo)
         (st : ShapeManagerState) (g : RNG),
       g.Valid → 240 ≤ w → 240 ≤ h →
       0 ≤ (ShapeManager.createShape env w h now k st g).2.1.x
       ∧ (ShapeManager.createShape env w h now k st g).2.1.x ≤ w
       ∧ 0 ≤ (ShapeManager.createShape env w h now k st g).2.1.y
       ∧ (ShapeManager.createShape env w h now k st g).2.1.y ≤ h) := by
  refine ⟨?_, ?_, ?_⟩
  · intro env now st g hw hh p hp
    unfold ParticleSystem.createConstantParticles at hp
    split_ifs at hp with htime
    · exact Or.inl hp
    · exact ParticleSystem.constantEmitLoop_mem env
        (randomIntBetween 1 3 g).1.toNat
        { st with lastConstantEmitTime := now }
        (randomIntBetween 1 3 g).2 hw hh p hp
  · intro env x y button st g p hp
    unfold ParticleSystem.createClickEffect at hp
    exact ParticleSystem.clickEffectLoop_mem env x y _ _ _ _ _ p hp
  · intro env w h now k st g hg hw hh
    rw [ShapeManager.createShape_newShape]
    obtain ⟨hx, hy⟩ := Shape.init_position env now
      (getRandomPosition w h CONFIG.shapes.maxSize g).1.1
      (getRandomPosition w h CONFIG.shapes.maxSize g).1.2
      (ShapeManager.getShapeType k
        (getRandomPosition w h CONFIG.shapes.maxSize g).2).1
      (getRandomColor (ShapeManager.getShapeType k
        (getRandomPosition w h CONFIG.shapes.maxSize g).2).2).1
      (if k.effect = "" then "normal" else k.effect)
      (getRandomColor (ShapeManager.getShapeType k
        (getRandomPosition w h CONFIG.shapes.maxSize g).2).2).2
    rw [hx, hy]
    obtain ⟨h0lo, h0hi⟩ := hg g.k
    obtain ⟨h1lo, h1hi⟩ := hg (g.k + 1)
    simp only [getRandomPosition, randomBetween, RNG.next,
      CONFIG.shapes.maxSize]
    refine ⟨by nlinarith, by nlinarith, by nlinarith, by nlinarith⟩

/-- Witness for the amended C8 at concrete inputs. -/
theorem c8_position_clamping_witness :
    ((Particle.init envZero 1500 300 ⟨"star", true, 1⟩
        (RNG.next rngZero).2).1 ∈ clickTestSystem.particles
      ∨ ((Particle.init envZero 1500 300 ⟨"star", true, 1⟩
            (RNG.next rngZero).2).1.x = 1500
         ∧ (Particle.init envZero 1500 300 ⟨"star", true, 1⟩
              (RNG.next rngZero).2).1.y = 300))
    ∧ (0 ≤ (ShapeManager.createShape envZero 400 400 0 ⟨"letter", 'a', ""⟩
          ShapeManager.initState rngZero).2.1.x
       ∧ (ShapeManager.createShape envZero 400 400 0 ⟨"letter", 'a', ""⟩
          ShapeManager.initState rngZero).2.1.x ≤ 400
       ∧ 0 ≤ (ShapeManager.createShape envZero 400 400 0 ⟨"letter", 'a', ""⟩
          ShapeManager.initState rngZero).2.1.y
       ∧ (ShapeManager.createShape envZero 400 400 0 ⟨"letter", 'a', ""⟩
          ShapeManager.initState rngZero).2.1.y ≤ 400) := by
  constructor
  · refine c8_position_clamping.2.1 envZero 1500 300 5 clickTestSystem rngZero
      (Particle.init envZero 1500 300 ⟨"star", true, 1⟩
        (RNG.next rngZero).2).1 ?_
    have hmem : ∀ g : RNG,
        (Particle.init envZero 1500 300 ⟨"star", true, 1⟩ g).1
          ∈ (ParticleSystem.createParticle envZero 1500 300 ⟨"star", true, 1⟩
              clickTestSystem g).1.particles := by
      intro g
      obtain ⟨st1, hst1, hchar⟩ := ParticleSystem.createParticle_char envZero
        1500 300 ⟨"star", true, 1⟩ clickTestSystem g
      rw [hchar, hst1]
      norm_num [clickTestSystem, CONFIG.particles.maxActiveParticles]
    simp only [ParticleSystem.createClickEffect, clickTestSystem]
    norm_num
    simp only [ParticleSystem.clickEffectLoop, rngZero, RNG.next, listGetJs]
    norm_num
    exact hmem _
  · exact c8_position_clamping.2.2 envZero 400 400 0 ⟨"letter", 'a', ""⟩
      ShapeManager.initState rngZero rngZero_valid (by norm_num) (by norm_num)

/-- An element surviving a step-and-filter pass is the alive-reported
step of some element of the input list. -/
theorem mem_aliveStep {α β : Type} (f : α → β × Bool) (l : List α) (x : β)
    (hx : x ∈ ((l.map f).filter (fun r => r.2)).map (fun r => r.1)) :
    ∃ a ∈ l, f a = (x, true) := by
  simp only [List.mem_map, List.mem_filter] at hx
  obtain ⟨r, ⟨hr, hr2⟩, hrx⟩ := hx
  obtain ⟨a, ha, rfl⟩ := hr
  refine ⟨a, ha, ?_⟩
  rw [← hrx, ← hr2]

/-- The number of elements dropped by a step-and-filter pass is the
count of elements whose step reports expiry. -/
theorem length_deadStep {α β : Type} (f : α → β × Bool) (l : List α) :
    (((l.map f).filter (fun r => !r.2)).map (fun r => r.1)).length
      = l.countP (fun a => !(f a).2) := by
  rw [List.length_map, ← List.countP_eq_length_filter, List.countP_map]
  rfl

/-- C3: `ShapeManager.update` and `ParticleSystem.update` release every
expiring entity within the same call: every entity still live after the
call is the alive-reported step of an entity that was live when the
call processed its collection (for particles, the collection right
after the constant-emission phase), with — for particles — a position
within the 100-pixel off-screen buffer; and the pool free-list grows in
that same call by exactly the number of entities whose step reported
expiry (plus, for particles, the number of stepped-alive particles
whose position left the canvas bounds by more than the 100-pixel
buffer). -/
theorem c3_expired_released_same_call :
    ∀ (env : MathEnv) (now dt : ℚ) (st : ShapeManagerState)
      (pt : ParticleSystemState) (g : RNG) (pt1 : ParticleSystemState),
      pt1 = (ParticleSystem.createConstantParticles env now pt g).1 →
      (∀ s ∈ (ShapeManager.update env now dt st).shapes,
         ∃ s0 ∈ st.shapes, Shape.update env now dt s0 = (s, true))
      ∧ (ShapeManager.update env now dt st).shapePool.pool.length
          = st.shapePool.pool.length
            + st.shapes.countP (fun s => !(Shape.update env now dt s).2)
      ∧ (∀ p ∈ (ParticleSystem.update env now dt pt g).1.particles,
           (∃ p0 ∈ pt1.particles, Particle.update dt p0 = (p, true))
           ∧ ParticleSystem.offScreen pt1.canvasWidth pt1.canvasHeight p
               = false)
      ∧ (ParticleSystem.update env now dt pt g).1.particlePool.pool.length
          = pt1.particlePool.pool.length
            + pt1.particles.countP (fun p => !(Particle.update dt p).2)
            + (((pt1.particles.map (Particle.update dt)).filter
                 (fun r => r.2)).map (fun r => r.1)).countP
                (fun p => ParticleSystem.offScreen pt1.canvasWidth
                  pt1.canvasHeight p) := by
  intro env now dt st pt g pt1 hpt1
  refine ⟨?_, ?_, ?_, ?_⟩
  · intro s hs
    unfold ShapeManager.update at hs
    exact mem_aliveStep _ _ _ hs
  · unfold ShapeManager.update
    rw [ObjectPool.foldl_release_pool]
    rw [List.length_append, List.length_map, length_deadStep]
  · intro p hp
    subst hpt1
    unfold ParticleSystem.update at hp
    have hmem := List.mem_filter.mp hp
    constructor
    · exact mem_aliveStep _ _ _ hmem.1
    · simpa using hmem.2
  · subst hpt1
    unfold ParticleSystem.update
    rw [ObjectPool.foldl_release_pool, ObjectPool.foldl_release_pool]
    rw [List.length_append, List.length_map, ← List.countP_eq_length_filter,
      List.length_append, List.length_map, length_deadStep]

/-- A live shape that is nowhere near expiry, for exercising the update
path on concrete inputs. -/
def aliveTestShape : Shape := { Shape.blank with isActive := true }

/-- A live particle that is nowhere near expiry, for exercising the
update path on concrete inputs. -/
def aliveTestParticle : Particle :=
  { Particle.blank with isActive := true, life := 1000, maxLife := 1000,
                        maxSize := 5 }

/-- A one-shape manager with an empty pool. -/
def updateTestShapes : ShapeManagerState :=
  ⟨[aliveTestShape], ObjectPool.mk (fun _ => Shape.blank) Shape.reset []⟩

/-- A one-particle 800×600 system with an empty pool, whose emission
timer has not yet elapsed at t = 100. -/
def updateTestParticles : ParticleSystemState :=
  ⟨[aliveTestParticle], ObjectPool.mk (fun _ => Particle.blank)
    Particle.reset [], 400, 300, 120, 0, 20, 800, 600⟩

/-- The shape of `updateTestShapes` survives the step at age 100. -/
theorem aliveTestShape_step :
    (Shape.update envZero 100 16 aliveTestShape).2 = true := by
  unfold Shape.update
  norm_num [aliveTestShape, Shape.blank, min_def,
    CONFIG.shapes.animationDuration]

/-- The particle of `updateTestParticles` survives the step at
dt = 16 and stays far within the canvas. -/
theorem aliveTestParticle_step :
    (Particle.update 16 aliveTestParticle).2 = true
    ∧ (Particle.update 16 aliveTestParticle).1.x = 0
    ∧ (Particle.update 16 aliveTestParticle).1.y = 0 := by
  unfold Particle.update Particle.updateColor
  norm_num [aliveTestParticle, Particle.blank, max_def, easeOut]

/-- At t = 100 the constant-emission interval (120 ms from t = 0) has
not elapsed, so the emission phase is a no-op on
`updateTestParticles`. -/
theorem updateTestParticles_noEmit :
    ParticleSystem.createConstantParticles envZero 100 updateTestParticles
      rngZero = (updateTestParticles, rngZero) := by
  unfold ParticleSystem.createConstantParticles
  rw [if_pos]
  norm_num [updateTestParticles]

/-- Witness for C3 at the concrete one-entity managers. -/
theorem c3_expired_released_same_call_witness :
    (∃ s0 ∈ updateTestShapes.shapes,
       Shape.update envZero 100 16 s0
         = ((Shape.update envZero 100 16 aliveTestShape).1, true))
    ∧ (∃ p0 ∈ (ParticleSystem.createConstantParticles envZero 100
          updateTestParticles rngZero).1.particles,
       Particle.update 16 p0 = ((Particle.update 16 aliveTestParticle).1, true))
    ∧ ParticleSystem.offScreen
        (ParticleSystem.createConstantParticles envZero 100
          updateTestParticles rngZero).1.canvasWidth
        (ParticleSystem.createConstantParticles envZero 100
          updateTestParticles rngZero).1.canvasHeight
        (Particle.update 16 aliveTestParticle).1 = false := by
  have h := c3_expired_released_same_call envZero 100 16 updateTestShapes
    updateTestParticles rngZero _ rfl
  have hm1 : (Shape.update envZero 100 16 aliveTestShape).1
      ∈ (ShapeManager.update envZero 100 16 updateTestShapes).shapes := by
    unfold ShapeManager.update
    simp [updateTestShapes, List.filter_cons, aliveTestShape_step]
  have hm2 : (Particle.update 16 aliveTestParticle).1
      ∈ (ParticleSystem.update envZero 100 16 updateTestParticles
          rngZero).1.particles := by
    unfold ParticleSystem.update
    rw [updateTestParticles_noEmit]
    simp [updateTestParticles, List.filter_cons, aliveTestParticle_step.1,
      ParticleSystem.offScreen, aliveTestParticle_step.2.1,
      aliveTestParticle_step.2.2]
    norm_num
  exact ⟨h.1 _ hm1, (h.2.2.1 _ hm2).1, (h.2.2.1 _ hm2).2⟩

end BabyGame
